import Mathlib

/-! # Methodoly: the storage bridge of `src/app.js`

A shallow embedding of the one source file of the repository.  The file binds
`storage` to `window.localStorage || { setItem, getItem }`, fixes the key
`"progrissStore"` and subscribes two handlers to the ports of the Elm
application: `persistStore` and `triggerStoreLoad`.  Both handlers call the
global `localStorage`; the second one sends on the port `loadStore`.

The embedding keeps the world of the script explicit: the host storage (if
any), the binding of `storage`, the signals sent on `loadStore`, and the log of
the calls that reached the host storage.
-/

namespace Methodoly

/-! ## Values and errors -/

/-- The two methods of the object literal on lines 3-10 of `src/app.js`. -/
inductive Method where
  | setItem
  | getItem
  deriving DecidableEq, Repr

/-- JavaScript values that occur in the script: `undefined`, `null`, strings,
the two method objects of the fallback literal, and the value found under a
name on `Object.prototype`. -/
inductive JSVal where
  | undefined
  | null
  | str (s : String)
  | method (m : Method)
  | inherited (name : String)
  deriving DecidableEq, Repr

/-- Exceptions of the script: calling a method on `undefined`, or calling
something that is not a function, throws a `TypeError`. -/
inductive JSError where
  | typeError
  deriving DecidableEq, Repr

deriving instance DecidableEq for Except

/-- Line 11: `var storageKey = "progrissStore";`. -/
def storageKey : String := "progrissStore"

/-- The comparison `x != null` of line 18: loose inequality, false exactly for
`null` and `undefined`. -/
def looseNeNull : JSVal → Bool
  | .undefined => false
  | .null => false
  | _ => true

/-! ## The fallback object (lines 3-10) -/

/-- An own property of the fallback object holds one of its two methods, or
what an assignment `this[key] = value` wrote: a string, or `undefined` when the
argument was missing. -/
inductive OwnVal where
  | method (m : Method)
  | str (s : String)
  | undefined
  deriving DecidableEq, Repr

/-- The object literal `{ setItem(key, value) {...}, getItem(key) {...} }`: its
own properties by name.  Its prototype is `Object.prototype`. -/
structure FallbackObj where
  own : String → Option OwnVal

/-- The literal as constructed: the two methods are its only own properties. -/
def freshFallback : FallbackObj :=
  ⟨fun k =>
    if k = "setItem" then some (.method .setItem)
    else if k = "getItem" then some (.method .getItem)
    else none⟩

/-- The data properties a plain object inherits from `Object.prototype`
(ECMAScript, with the legacy accessor helpers of Annex B). -/
def objectPrototypeKeys : List String :=
  ["constructor", "hasOwnProperty", "isPrototypeOf", "propertyIsEnumerable",
   "toLocaleString", "toString", "valueOf", "__defineGetter__",
   "__defineSetter__", "__lookupGetter__", "__lookupSetter__"]

/-- The expression `this[key]` of line 8: an own property if there is one,
else what `Object.prototype` has under the name (`__proto__` is its accessor),
else `undefined`. -/
def FallbackObj.getProp (o : FallbackObj) (key : String) : JSVal :=
  match o.own key with
  | some (.method m) => .method m
  | some (.str s) => .str s
  | some .undefined => .undefined
  | none =>
    if key = "__proto__" then .inherited key
    else if key ∈ objectPrototypeKeys then .inherited key
    else .undefined

/-- The statement `this[key] = value` of line 5, for `value` a string or
`undefined` (`none`): the setter of `__proto__` ignores both, any other name
becomes (or stays) an own property holding the value. -/
def FallbackObj.setProp (o : FallbackObj) (key : String) (value : Option String) :
    FallbackObj :=
  if key = "__proto__" then o
  else
    ⟨fun k =>
      if k = key then
        some (match value with
          | some v => .str v
          | none => .undefined)
      else o.own k⟩

/-- The call `o.setItem(key, value)`: looks the property `setItem` up on the
object and calls what it finds with `this = o`.  Returns the value of the call
and the object afterwards. -/
def FallbackObj.setItem (o : FallbackObj) (key value : String) :
    Except JSError (JSVal × FallbackObj) :=
  match o.getProp "setItem" with
  | .method .setItem => .ok (.undefined, o.setProp key (some value))
  | .method .getItem => .ok (o.getProp key, o)
  | _ => .error .typeError

/-- The call `o.getItem(key)`: looks the property `getItem` up on the object
and calls what it finds with `this = o`. -/
def FallbackObj.getItem (o : FallbackObj) (key : String) :
    Except JSError (JSVal × FallbackObj) :=
  match o.getProp "getItem" with
  | .method .getItem => .ok (o.getProp key, o)
  | .method .setItem => .ok (.undefined, o.setProp key none)
  | _ => .error .typeError

/-- Both methods of the object are still the ones of the literal. -/
def FallbackObj.Intact (o : FallbackObj) : Prop :=
  o.own "setItem" = some (.method .setItem) ∧ o.own "getItem" = some (.method .getItem)

/-! ## The host storage -/

/-- Modelled from the spec: `window.localStorage` is provided by the host and is
not part of the repository; its contents are a map from keys to strings, after
the storage backend contract `get(key) → string | absent`,
`set(key, value) → unit`. -/
abbrev HostStore := String → Option String

/-- Modelled from the spec: the empty host storage. -/
def HostStore.empty : HostStore := fun _ => none

/-- Modelled from the spec: `getItem` of the host storage, the stored string or
`null` when the key is absent. -/
def HostStore.getItem (s : HostStore) (key : String) : JSVal :=
  match s key with
  | some v => .str v
  | none => .null

/-- Modelled from the spec: `setItem` of the host storage overwrites the slot
of the key and leaves every other slot alone. -/
def HostStore.setItem (s : HostStore) (key value : String) : HostStore :=
  fun k => if k = key then some value else s k

/-! ## The world of the script -/

/-- The host environment the script starts in: `window.localStorage` is a
storage object or falsy (`none`). -/
structure Window where
  localStorage : Option HostStore

/-- What the constant `storage` of line 3 is bound to: the host storage object
itself, or the fallback object. -/
inductive StorageRef where
  | host
  | fallback (o : FallbackObj)

/-- A call that reached the host storage. -/
inductive Op where
  | getItem (key : String)
  | setItem (key value : String)
  deriving DecidableEq, Repr

/-- The state the handlers run in. -/
structure World where
  /-- The global `localStorage`: the contents of the host storage, `none` when
  the host has none. -/
  localStorage : Option HostStore
  /-- The constant `storage`. -/
  storage : StorageRef
  /-- The payloads sent with `app.ports.loadStore.send`, oldest first. -/
  sent : List JSVal
  /-- The calls made on the host storage, oldest first. -/
  log : List Op

/-- How a handler ends: the world it leaves and its completion, a returned
value or a thrown exception. -/
structure Outcome where
  world : World
  completion : Except JSError JSVal

/-- Lines 3-11: `const storage = window.localStorage || { ... }`.  The literal
is only evaluated when `window.localStorage` is falsy. -/
def boot (win : Window) : World :=
  { localStorage := win.localStorage
    storage :=
      match win.localStorage with
      | some _ => .host
      | none => .fallback freshFallback
    sent := []
    log := [] }

/-- The call `localStorage.setItem(key, value)` on the global: a `TypeError`
when there is no host storage. -/
def World.localStorageSetItem (w : World) (key value : String) : Except JSError World :=
  match w.localStorage with
  | none => .error .typeError
  | some s =>
    .ok { w with localStorage := some (s.setItem key value), log := w.log ++ [.setItem key value] }

/-- The call `localStorage.getItem(key)` on the global: a `TypeError` when
there is no host storage. -/
def World.localStorageGetItem (w : World) (key : String) : Except JSError (JSVal × World) :=
  match w.localStorage with
  | none => .error .typeError
  | some s => .ok (s.getItem key, { w with log := w.log ++ [.getItem key] })

/-- The call `app.ports.loadStore.send(x)`. -/
def World.loadStoreSend (w : World) (x : JSVal) : World :=
  { w with sent := w.sent ++ [x] }

/-- Lines 13-15, the subscriber of `persistStore`:
`localStorage.setItem(storageKey, value);`. -/
def persistStore (value : String) (w : World) : Outcome :=
  match w.localStorageSetItem storageKey value with
  | .error e => ⟨w, .error e⟩
  | .ok w1 => ⟨w1, .ok .undefined⟩

/-- Lines 17-21, the subscriber of `triggerStoreLoad`:
`if (localStorage.getItem(storageKey) != null) { app.ports.loadStore.send(localStorage.getItem(storageKey)); }`. -/
def triggerStoreLoad (w : World) : Outcome :=
  match w.localStorageGetItem storageKey with
  | .error e => ⟨w, .error e⟩
  | .ok (x, w1) =>
    if looseNeNull x then
      match w1.localStorageGetItem storageKey with
      | .error e => ⟨w1, .error e⟩
      | .ok (y, w2) => ⟨w2.loadStoreSend y, .ok .undefined⟩
    else ⟨w1, .ok .undefined⟩

/-- The two inbound signals of the application. -/
inductive Event where
  | persistRequest (value : String)
  | loadRequest
  deriving DecidableEq, Repr

/-- The port runtime calls the subscriber of the event. -/
def handle : Event → World → Outcome
  | .persistRequest v, w => persistStore v w
  | .loadRequest, w => triggerStoreLoad w

/-- The event loop: every event is handled in the world the previous handler
left, whether that handler returned or threw. -/
def run (w : World) : List Event → World
  | [] => w
  | e :: es => run (handle e w).world es

/-- What `storage.getItem(key)` evaluates to in a world: the read of the
backend the constant `storage` is bound to. -/
def World.storageGet (w : World) (key : String) : Except JSError JSVal :=
  match w.storage with
  | .host =>
    match w.localStorage with
    | some s => .ok (s.getItem key)
    | none => .error .typeError
  | .fallback o => (o.getItem key).map Prod.fst

/-- Number of reads in a log. -/
def reads (l : List Op) : Nat :=
  l.countP fun
    | .getItem _ => true
    | .setItem _ _ => false

/-- Number of writes in a log. -/
def writes (l : List Op) : Nat :=
  l.countP fun
    | .getItem _ => false
    | .setItem _ _ => true

/-- The signals sent while going from world `w` to world `w1`. -/
def sentSince (w w1 : World) : List JSVal := w1.sent.drop w.sent.length

/-- The host-storage calls made while going from world `w` to world `w1`. -/
def opsSince (w w1 : World) : List Op := w1.log.drop w.log.length

/-- The `storage` constant and the global `localStorage` agree with what
`boot` sets up: either the host storage exists and `storage` is that object, or
there is none and `storage` is the fallback object, still as constructed. -/
def World.Bound (w : World) : Prop :=
  (∃ s, w.localStorage = some s ∧ w.storage = .host) ∨
    (w.localStorage = none ∧ w.storage = .fallback freshFallback)

/-- A host storage holding `"old"` under the storage key and `"dark"` under
the key `"theme"`. -/
def sampleStore : HostStore :=
  (HostStore.empty.setItem "theme" "dark").setItem storageKey "old"

/-! ## The handlers, case by case -/

theorem persistStore_host (w : World) (s : HostStore) (v : String)
    (h : w.localStorage = some s) :
    persistStore v w =
      ⟨{ w with localStorage := some (s.setItem storageKey v),
                log := w.log ++ [.setItem storageKey v] }, .ok .undefined⟩ := by
  simp [persistStore, World.localStorageSetItem, h]

theorem persistStore_none (w : World) (v : String) (h : w.localStorage = none) :
    persistStore v w = ⟨w, .error .typeError⟩ := by
  simp [persistStore, World.localStorageSetItem, h]

theorem triggerStoreLoad_present (w : World) (s : HostStore) (v : String)
    (h : w.localStorage = some s) (hv : s storageKey = some v) :
    triggerStoreLoad w =
      ⟨{ w with log := w.log ++ [.getItem storageKey, .getItem storageKey],
                sent := w.sent ++ [.str v] }, .ok .undefined⟩ := by
  simp [triggerStoreLoad, World.localStorageGetItem, World.loadStoreSend, HostStore.getItem,
    looseNeNull, h, hv]

theorem triggerStoreLoad_absent (w : World) (s : HostStore)
    (h : w.localStorage = some s) (hv : s storageKey = none) :
    triggerStoreLoad w = ⟨{ w with log := w.log ++ [.getItem storageKey] }, .ok .undefined⟩ := by
  simp [triggerStoreLoad, World.localStorageGetItem, HostStore.getItem, looseNeNull, h, hv]

theorem triggerStoreLoad_none (w : World) (h : w.localStorage = none) :
    triggerStoreLoad w = ⟨w, .error .typeError⟩ := by
  simp [triggerStoreLoad, World.localStorageGetItem, h]

theorem HostStore.setItem_same (s : HostStore) (k v : String) : s.setItem k v k = some v := by
  simp [HostStore.setItem]

theorem HostStore.setItem_other (s : HostStore) (k v j : String) (h : j ≠ k) :
    s.setItem k v j = s j := by
  simp [HostStore.setItem, h]

/-! ## The binding of `storage` -/

theorem persistStore_storage (v : String) (w : World) :
    (persistStore v w).world.storage = w.storage := by
  cases h : w.localStorage with
  | none => rw [persistStore_none w v h]
  | some s => rw [persistStore_host w s v h]

theorem triggerStoreLoad_storage (w : World) : (triggerStoreLoad w).world.storage = w.storage := by
  cases h : w.localStorage with
  | none => rw [triggerStoreLoad_none w h]
  | some s =>
    cases hv : s storageKey with
    | none => rw [triggerStoreLoad_absent w s h hv]
    | some v => rw [triggerStoreLoad_present w s v h hv]

theorem handle_storage (e : Event) (w : World) : (handle e w).world.storage = w.storage := by
  cases e with
  | persistRequest v => exact persistStore_storage v w
  | loadRequest => exact triggerStoreLoad_storage w

theorem run_storage (evs : List Event) (w : World) : (run w evs).storage = w.storage := by
  induction evs generalizing w with
  | nil => rfl
  | cons e es ih => rw [run, ih, handle_storage]

theorem boot_bound (win : Window) : (boot win).Bound := by
  cases h : win.localStorage with
  | none => right; simp [boot, h]
  | some s => left; exact ⟨s, by simp [boot, h], by simp [boot, h]⟩

theorem handle_bound (e : Event) (w : World) (hw : w.Bound) : (handle e w).world.Bound := by
  rcases hw with ⟨s, hs, hb⟩ | ⟨hn, hb⟩
  · left
    cases e with
    | persistRequest v =>
      rw [handle, persistStore_host w s v hs]
      exact ⟨_, rfl, hb⟩
    | loadRequest =>
      rw [handle]
      cases hv : s storageKey with
      | none => rw [triggerStoreLoad_absent w s hs hv]; exact ⟨s, hs, hb⟩
      | some v => rw [triggerStoreLoad_present w s v hs hv]; exact ⟨s, hs, hb⟩
  · right
    cases e with
    | persistRequest v => rw [handle, persistStore_none w v hn]; exact ⟨hn, hb⟩
    | loadRequest => rw [handle, triggerStoreLoad_none w hn]; exact ⟨hn, hb⟩

theorem run_bound (evs : List Event) (w : World) (hw : w.Bound) : (run w evs).Bound := by
  induction evs generalizing w with
  | nil => exact hw
  | cons e es ih => exact ih _ (handle_bound e w hw)

/-! ## Round trip and last write wins -/

/-- With a host storage the round trip holds: in every world whose host
storage exists, whatever it holds, handling persist-request(v) and then load-request() makes both handlers return
normally, the first one sends nothing, and together they send exactly one
signal on `loadStore`, whose payload is the string `v` (the empty string
included). -/
theorem persist_then_load_round_trip (w : World) (s : HostStore) (v : String)
    (h : w.localStorage = some s) :
    (persistStore v w).completion = .ok .undefined ∧
      (persistStore v w).world.sent = w.sent ∧
      (triggerStoreLoad (persistStore v w).world).completion = .ok .undefined ∧
      (run w [.persistRequest v, .loadRequest]).sent = w.sent ++ [.str v] ∧
      sentSince w (run w [.persistRequest v, .loadRequest]) = [.str v] := by
  have h1 := persistStore_host w s v h
  have h2 := triggerStoreLoad_present (persistStore v w).world (s.setItem storageKey v) v
    (by rw [h1]) (HostStore.setItem_same s storageKey v)
  have hrun : run w [.persistRequest v, .loadRequest]
      = (triggerStoreLoad (persistStore v w).world).world := rfl
  refine ⟨by rw [h1], by rw [h1], by rw [h2], ?_, ?_⟩
  · rw [hrun, h2, h1]
  · rw [hrun, h2, h1]; simp [sentSince]

/-- The round trip on the scenario of the specification: the value
`{"count":1}` persisted into the sample store and loaded back. -/
theorem persist_then_load_round_trip_witness :
    (boot ⟨some sampleStore⟩).localStorage = some sampleStore ∧
      (run (boot ⟨some sampleStore⟩)
        [.persistRequest "\x7b\"count\":1\x7d", .loadRequest]).sent
        = (boot ⟨some sampleStore⟩).sent ++ [.str "\x7b\"count\":1\x7d"] :=
  ⟨rfl, (persist_then_load_round_trip (boot ⟨some sampleStore⟩) sampleStore
    "\x7b\"count\":1\x7d" rfl).2.2.2.1⟩

/-- With a host storage the last write wins: in every world whose host storage
exists, handling
persist-request(v1), persist-request(v2) and load-request() sends exactly one
signal, with payload `v2`, and none with payload `v1` when `v1 ≠ v2`. -/
theorem last_write_wins (w : World) (s : HostStore) (v1 v2 : String)
    (h : w.localStorage = some s) :
    (run w [.persistRequest v1, .persistRequest v2, .loadRequest]).sent = w.sent ++ [.str v2] ∧
      sentSince w (run w [.persistRequest v1, .persistRequest v2, .loadRequest]) = [.str v2] ∧
      (v1 ≠ v2 →
        JSVal.str v1 ∉ sentSince w (run w [.persistRequest v1, .persistRequest v2, .loadRequest])) := by
  have h1 := persistStore_host w s v1 h
  have h2 := persistStore_host (persistStore v1 w).world (s.setItem storageKey v1) v2 (by rw [h1])
  have h3 := triggerStoreLoad_present (persistStore v2 (persistStore v1 w).world).world
    ((s.setItem storageKey v1).setItem storageKey v2) v2 (by rw [h2])
    (HostStore.setItem_same _ storageKey v2)
  have hrun : run w [.persistRequest v1, .persistRequest v2, .loadRequest]
      = (triggerStoreLoad (persistStore v2 (persistStore v1 w).world).world).world := rfl
  have hsent : (run w [.persistRequest v1, .persistRequest v2, .loadRequest]).sent
      = w.sent ++ [.str v2] := by
    rw [hrun, h3, h2, h1]
  have hsince : sentSince w (run w [.persistRequest v1, .persistRequest v2, .loadRequest])
      = [.str v2] := by
    simp [sentSince, hsent]
  refine ⟨hsent, hsince, ?_⟩
  intro hne
  rw [hsince]
  simp [hne]

/-- The last write wins for `"a"` then `"b"` persisted into the sample store. -/
theorem last_write_wins_witness :
    (boot ⟨some sampleStore⟩).localStorage = some sampleStore ∧
      sentSince (boot ⟨some sampleStore⟩)
        (run (boot ⟨some sampleStore⟩) [.persistRequest "a", .persistRequest "b", .loadRequest])
        = [.str "b"] :=
  ⟨rfl, (last_write_wins (boot ⟨some sampleStore⟩) sampleStore "a" "b" rfl).2.1⟩

/-! ## The load handler -/

/-- C3. In every world the script can reach (any host environment, any events
handled so far), reading the storage key from the bound backend gives a value
`x`, and load-request() sends exactly the signal `x` when `x` is present
(neither `null` nor `undefined`) and no signal when it is absent. -/
theorem load_sends_iff_present (win : Window) (evs : List Event) :
    ∃ x, (run (boot win) evs).storageGet storageKey = .ok x ∧
      (triggerStoreLoad (run (boot win) evs)).world.sent
        = (run (boot win) evs).sent ++ (if looseNeNull x then [x] else []) ∧
      ((sentSince (run (boot win) evs) (triggerStoreLoad (run (boot win) evs)).world ≠ [])
        ↔ looseNeNull x = true) := by
  have hb := run_bound evs (boot win) (boot_bound win)
  generalize run (boot win) evs = w at hb
  rcases hb with ⟨s, hs, hst⟩ | ⟨hn, hst⟩
  · cases hv : s storageKey with
    | none =>
      refine ⟨.null, by simp [World.storageGet, hs, hst, HostStore.getItem, hv], ?_, ?_⟩
      · rw [triggerStoreLoad_absent w s hs hv]; simp [looseNeNull]
      · rw [triggerStoreLoad_absent w s hs hv]; simp [looseNeNull, sentSince]
    | some v =>
      refine ⟨.str v, by simp [World.storageGet, hs, hst, HostStore.getItem, hv], ?_, ?_⟩
      · rw [triggerStoreLoad_present w s v hs hv]; simp [looseNeNull]
      · rw [triggerStoreLoad_present w s v hs hv]; simp [looseNeNull, sentSince]
  · refine ⟨.undefined, ?_, ?_, ?_⟩
    · rw [World.storageGet, hst]; rfl
    · rw [triggerStoreLoad_none w hn]; simp [looseNeNull]
    · rw [triggerStoreLoad_none w hn]; simp [looseNeNull, sentSince]

/-! ## Without a host storage -/

/-- C4, the code at the failing input. When `window.localStorage` is missing,
`storage` is bound to the fresh fallback object, yet both handlers call the
global `localStorage`: persist-request(v) throws a `TypeError` and stores
nothing, load-request() throws as well, and persist-request(v) followed by
load-request() sends no signal at all, so the round trip is lost. -/
theorem fallback_round_trip_lost (v : String) :
    (boot ⟨none⟩).storage = .fallback freshFallback ∧
      (persistStore v (boot ⟨none⟩)).completion = .error .typeError ∧
      (persistStore v (boot ⟨none⟩)).world.storageGet storageKey = .ok .undefined ∧
      (triggerStoreLoad (persistStore v (boot ⟨none⟩)).world).completion = .error .typeError ∧
      (run (boot ⟨none⟩) [.persistRequest v, .loadRequest]).sent = [] ∧
      (run (boot ⟨none⟩) [.loadRequest]).sent = [] := by
  have h1 := persistStore_none (boot ⟨none⟩) v rfl
  have h2 := triggerStoreLoad_none (boot ⟨none⟩) rfl
  have hrun : run (boot ⟨none⟩) [.persistRequest v, .loadRequest]
      = (triggerStoreLoad (persistStore v (boot ⟨none⟩)).world).world := rfl
  have hrun1 : run (boot ⟨none⟩) [.loadRequest] = (triggerStoreLoad (boot ⟨none⟩)).world := rfl
  refine ⟨rfl, by rw [h1], by rw [h1]; rfl, by rw [h1, h2], ?_, ?_⟩
  · rw [hrun, h1, h2]; rfl
  · rw [hrun1, h2]; rfl

/-- C1, the code at the failing input. When `window.localStorage` is missing,
the world `boot` sets up has the fresh fallback object bound to `storage`, but
persist-request(v) throws a `TypeError` on the global `localStorage`,
load-request() throws as well, and the two events together send no signal: the
signals sent are not the single signal with payload `v` of the round trip. -/
theorem round_trip_fails_without_host (v : String) :
    (boot ⟨none⟩).storage = .fallback freshFallback ∧
      (handle (.persistRequest v) (boot ⟨none⟩)).completion = .error .typeError ∧
      (handle .loadRequest (handle (.persistRequest v) (boot ⟨none⟩)).world).completion
        = .error .typeError ∧
      sentSince (boot ⟨none⟩) (run (boot ⟨none⟩) [.persistRequest v, .loadRequest]) = [] ∧
      sentSince (boot ⟨none⟩) (run (boot ⟨none⟩) [.persistRequest v, .loadRequest])
        ≠ [.str v] := by
  have h1 : handle (.persistRequest v) (boot ⟨none⟩) = ⟨boot ⟨none⟩, .error .typeError⟩ :=
    persistStore_none (boot ⟨none⟩) v rfl
  have h2 : handle .loadRequest (boot ⟨none⟩) = ⟨boot ⟨none⟩, .error .typeError⟩ :=
    triggerStoreLoad_none (boot ⟨none⟩) rfl
  have hrun : run (boot ⟨none⟩) [.persistRequest v, .loadRequest]
      = (handle .loadRequest (handle (.persistRequest v) (boot ⟨none⟩)).world).world := rfl
  have hs : sentSince (boot ⟨none⟩) (run (boot ⟨none⟩) [.persistRequest v, .loadRequest])
      = [] := by
    rw [hrun, h1, h2]; rfl
  refine ⟨rfl, by rw [h1], by rw [h1, h2], hs, ?_⟩
  rw [hs]
  simp

/-- C2, the code at the failing input. When `window.localStorage` is missing,
persist-request(v1), persist-request(v2) and load-request() all throw a
`TypeError` on the global `localStorage` and send no signal: the signals sent
are not the single signal with payload `v2` of the last write. -/
theorem last_write_lost_without_host (v1 v2 : String) :
    (handle (.persistRequest v2) (handle (.persistRequest v1) (boot ⟨none⟩)).world).completion
        = .error .typeError ∧
      (run (boot ⟨none⟩) [.persistRequest v1, .persistRequest v2, .loadRequest]).sent = [] ∧
      sentSince (boot ⟨none⟩)
        (run (boot ⟨none⟩) [.persistRequest v1, .persistRequest v2, .loadRequest]) ≠ [.str v2] := by
  have h1 : ∀ v, handle (.persistRequest v) (boot ⟨none⟩) = ⟨boot ⟨none⟩, .error .typeError⟩ :=
    fun v => persistStore_none (boot ⟨none⟩) v rfl
  have h2 : handle .loadRequest (boot ⟨none⟩) = ⟨boot ⟨none⟩, .error .typeError⟩ :=
    triggerStoreLoad_none (boot ⟨none⟩) rfl
  have hrun : run (boot ⟨none⟩) [.persistRequest v1, .persistRequest v2, .loadRequest]
      = (handle .loadRequest (handle (.persistRequest v2)
          (handle (.persistRequest v1) (boot ⟨none⟩)).world).world).world := rfl
  have hw : run (boot ⟨none⟩) [.persistRequest v1, .persistRequest v2, .loadRequest]
      = boot ⟨none⟩ := by
    rw [hrun, h1 v1, h1 v2, h2]
  refine ⟨by rw [h1 v1, h1 v2], by rw [hw]; rfl, ?_⟩
  rw [hw]
  simp [sentSince]

/-- C5, the code at the failing input. When `window.localStorage` is missing,
persist-request(v) does not return: it throws a `TypeError` on the global
`localStorage`, and the bound backend, the fallback object, still returns
`undefined` for the storage key and not `v`; it is left as constructed. -/
theorem persist_stores_nothing_without_host (v : String) :
    (handle (.persistRequest v) (boot ⟨none⟩)).completion = .error .typeError ∧
      (handle (.persistRequest v) (boot ⟨none⟩)).completion ≠ .ok .undefined ∧
      (handle (.persistRequest v) (boot ⟨none⟩)).world.storage = .fallback freshFallback ∧
      (handle (.persistRequest v) (boot ⟨none⟩)).world.storageGet storageKey = .ok .undefined ∧
      (handle (.persistRequest v) (boot ⟨none⟩)).world.storageGet storageKey ≠ .ok (.str v) := by
  have h1 : handle (.persistRequest v) (boot ⟨none⟩) = ⟨boot ⟨none⟩, .error .typeError⟩ :=
    persistStore_none (boot ⟨none⟩) v rfl
  have hg : (boot ⟨none⟩).storageGet storageKey = .ok .undefined := rfl
  rw [h1]
  refine ⟨rfl, by simp, rfl, hg, ?_⟩
  show (boot ⟨none⟩).storageGet storageKey ≠ .ok (.str v)
  rw [hg]
  simp

/-! ## The persist handler -/

/-- With a host storage the persist handler overwrites the slot: in every world
whose host storage exists and is the bound backend,
whatever it held before, persist-request(v) leaves the backend holding exactly
`v` under the storage key, sends no signal, and returns no value (the call
completes with `undefined`). -/
theorem persist_overwrites_slot (w : World) (s : HostStore) (v : String)
    (h : w.localStorage = some s) (hst : w.storage = .host) :
    (persistStore v w).world.localStorage = some (s.setItem storageKey v) ∧
      s.setItem storageKey v storageKey = some v ∧
      (persistStore v w).world.storageGet storageKey = .ok (.str v) ∧
      (persistStore v w).world.sent = w.sent ∧
      (persistStore v w).completion = .ok .undefined := by
  have h1 := persistStore_host w s v h
  refine ⟨by rw [h1], HostStore.setItem_same s storageKey v, ?_, by rw [h1], by rw [h1]⟩
  rw [h1]
  simp [World.storageGet, hst, HostStore.getItem, HostStore.setItem]

/-- The overwrite on the sample store, which holds `"old"` under the storage key before
`"new"` is persisted. -/
theorem persist_overwrites_slot_witness :
    (boot ⟨some sampleStore⟩).localStorage = some sampleStore ∧
      (boot ⟨some sampleStore⟩).storage = .host ∧
      sampleStore storageKey = some "old" ∧
      (persistStore "new" (boot ⟨some sampleStore⟩)).world.storageGet storageKey
        = .ok (.str "new") :=
  ⟨rfl, rfl, by decide,
    (persist_overwrites_slot (boot ⟨some sampleStore⟩) sampleStore "new" rfl rfl).2.2.1⟩

/-! ## Storage calls per event -/

/-- C6 fails as stated: with a value stored under the storage key, one
load-request() calls `getItem` on the host storage twice. -/
theorem load_reads_twice_counterexample :
    ¬ (opsSince (boot ⟨some sampleStore⟩)
        (handle .loadRequest (boot ⟨some sampleStore⟩)).world).length ≤ 1 := by
  decide

/-- C6 as amended. Handling one event only appends to the log of storage
calls; persist-request makes at most one write and no read; load-request makes
no write and at most two reads: none without a host storage, one when the
storage key is absent, two when a value is stored under it. -/
theorem storage_calls_per_event (w : World) :
    (∀ e, (handle e w).world.log = w.log ++ opsSince w (handle e w).world) ∧
      (∀ v, writes (opsSince w (handle (.persistRequest v) w).world) ≤ 1 ∧
        reads (opsSince w (handle (.persistRequest v) w).world) = 0) ∧
      writes (opsSince w (handle .loadRequest w).world) = 0 ∧
      reads (opsSince w (handle .loadRequest w).world) ≤ 2 ∧
      reads (opsSince w (handle .loadRequest w).world)
        = (match w.localStorage with
          | none => 0
          | some s => if (s storageKey).isSome then 2 else 1) := by
  cases h : w.localStorage with
  | none =>
    have hp : ∀ v, handle (.persistRequest v) w = ⟨w, .error .typeError⟩ :=
      fun v => persistStore_none w v h
    have hl : handle .loadRequest w = ⟨w, .error .typeError⟩ := triggerStoreLoad_none w h
    refine ⟨?_, ?_, ?_, ?_, ?_⟩
    · intro e
      cases e with
      | persistRequest v => rw [hp v]; simp [opsSince]
      | loadRequest => rw [hl]; simp [opsSince]
    · intro v; rw [hp v]; simp [opsSince, writes, reads]
    · rw [hl]; simp [opsSince, writes]
    · rw [hl]; simp [opsSince, reads]
    · rw [hl]; simp [opsSince, reads]
  | some s =>
    have hp : ∀ v, handle (.persistRequest v) w = _ := fun v => persistStore_host w s v h
    cases hv : s storageKey with
    | none =>
      have hl : handle .loadRequest w = _ := triggerStoreLoad_absent w s h hv
      refine ⟨?_, ?_, ?_, ?_, ?_⟩
      · intro e
        cases e with
        | persistRequest v => rw [hp v]; simp [opsSince]
        | loadRequest => rw [hl]; simp [opsSince]
      · intro v; rw [hp v]; simp [opsSince, writes, reads]
      · rw [hl]; simp [opsSince, writes]
      · rw [hl]; simp [opsSince, reads]
      · rw [hl]; simp [opsSince, reads, hv]
    | some x =>
      have hl : handle .loadRequest w = _ := triggerStoreLoad_present w s x h hv
      refine ⟨?_, ?_, ?_, ?_, ?_⟩
      · intro e
        cases e with
        | persistRequest v => rw [hp v]; simp [opsSince]
        | loadRequest => rw [hl]; simp [opsSince]
      · intro v; rw [hp v]; simp [opsSince, writes, reads]
      · rw [hl]; simp [opsSince, writes]
      · rw [hl]; simp [opsSince, reads]
      · rw [hl]; simp [opsSince, reads, hv]

/-! ## Backend selection -/

/-- C7. The constant `storage` is bound to the host storage exactly when
`window.localStorage` is available and to the freshly built fallback object
exactly when it is not; handling an event never rebinds it, so the binding is
the same after every sequence of persist-request and load-request events. -/
theorem storage_bound_once (win : Window) (evs : List Event) :
    ((boot win).storage = .host ↔ win.localStorage.isSome = true) ∧
      ((boot win).storage = .fallback freshFallback ↔ win.localStorage = none) ∧
      (∀ e w, (handle e w).world.storage = w.storage) ∧
      (run (boot win) evs).storage = (boot win).storage := by
  refine ⟨?_, ?_, handle_storage, run_storage evs (boot win)⟩
  · cases hl : win.localStorage with
    | none => simp [boot, hl]
    | some s => simp [boot, hl]
  · cases hl : win.localStorage with
    | none => simp [boot, hl]
    | some s => simp [boot, hl]

/-! ## The fallback object as a field store -/

theorem FallbackObj.getProp_setItem_of_intact (o : FallbackObj) (hi : o.Intact) :
    o.getProp "setItem" = .method .setItem := by
  simp [FallbackObj.getProp, hi.1]

theorem FallbackObj.getProp_getItem_of_intact (o : FallbackObj) (hi : o.Intact) :
    o.getProp "getItem" = .method .getItem := by
  simp [FallbackObj.getProp, hi.2]

theorem FallbackObj.setItem_of_intact (o : FallbackObj) (k v : String) (hi : o.Intact) :
    o.setItem k v = .ok (.undefined, o.setProp k (some v)) := by
  simp [FallbackObj.setItem, o.getProp_setItem_of_intact hi]

theorem FallbackObj.getProp_getItem_setProp (o : FallbackObj) (k : String) (x : Option String)
    (hi : o.Intact) (hk : k ≠ "getItem") :
    (o.setProp k x).getProp "getItem" = .method .getItem := by
  by_cases hp : k = "__proto__"
  · simp [FallbackObj.setProp, hp, FallbackObj.getProp, hi.2]
  · simp [FallbackObj.setProp, hp, FallbackObj.getProp, hi.2, Ne.symm hk]

theorem FallbackObj.getProp_setProp_same (o : FallbackObj) (k v : String)
    (hp : k ≠ "__proto__") : (o.setProp k (some v)).getProp k = .str v := by
  simp [FallbackObj.setProp, hp, FallbackObj.getProp]

theorem FallbackObj.getProp_setProp_other (o : FallbackObj) (k j : String) (x : Option String)
    (hj : j ≠ k) : (o.setProp k x).getProp j = o.getProp j := by
  by_cases hp : k = "__proto__"
  · simp [FallbackObj.setProp, hp]
  · simp [FallbackObj.setProp, hp, FallbackObj.getProp, hj]

/-- C8 fails as stated. On the fresh fallback object the never-set key
`"getItem"` does not read as `undefined` but as the method itself, and writing
`"x"` under `"getItem"` does not read back `"x"`: the next `getItem` call throws
a `TypeError`. The inherited name `"toString"` does not read as `undefined`
either. -/
theorem fallback_keys_collide_counterexample :
    (freshFallback.getItem "getItem").map Prod.fst = .ok (.method .getItem) ∧
      ((freshFallback.setItem "getItem" "x").bind fun r => r.2.getItem "getItem").map Prod.fst
        = .error .typeError ∧
      (freshFallback.getItem "toString").map Prod.fst = .ok (.inherited "toString") := by
  decide

/-- C8 as amended. On a fallback object whose two methods have not been
overwritten, for every key `k` other than `"getItem"` and every string `v`:
`setItem(k, v)` returns normally; a following `getItem(k)` returns `v` unless
`k` is `"__proto__"`; and `getItem(j)` of every other key `j` returns what it
returned before. On the fresh object, `getItem(j)` is `undefined` for every key
`j` that is neither one of its two methods nor a name it inherits from
`Object.prototype`. All of this holds for the storage key `"progrissStore"`. -/
theorem fallback_field_store (o : FallbackObj) (k v : String) (hi : o.Intact)
    (hk : k ≠ "getItem") :
    (∃ o1, o.setItem k v = .ok (.undefined, o1) ∧
      (k ≠ "__proto__" → (o1.getItem k).map Prod.fst = .ok (.str v)) ∧
      (∀ j, j ≠ k → (o1.getItem j).map Prod.fst = (o.getItem j).map Prod.fst)) ∧
      (∀ j, j ≠ "setItem" → j ≠ "getItem" → j ≠ "__proto__" → j ∉ objectPrototypeKeys →
        (freshFallback.getItem j).map Prod.fst = .ok .undefined) ∧
      ((o.setItem storageKey v).bind fun r => r.2.getItem storageKey).map Prod.fst
        = .ok (.str v) ∧
      (freshFallback.getItem storageKey).map Prod.fst = .ok .undefined := by
  refine ⟨⟨o.setProp k (some v), o.setItem_of_intact k v hi, ?_, ?_⟩, ?_, ?_, by decide⟩
  · intro hp
    simp [FallbackObj.getItem, o.getProp_getItem_setProp k (some v) hi hk,
      o.getProp_setProp_same k v hp, Except.map]
  · intro j hj
    simp [FallbackObj.getItem, o.getProp_getItem_setProp k (some v) hi hk,
      o.getProp_getItem_of_intact hi, o.getProp_setProp_other k j (some v) hj, Except.map]
  · intro j h1 h2 h3 h4
    simp [FallbackObj.getItem, FallbackObj.getProp, freshFallback, h1, h2, h3, h4, Except.map]
  · have hs : storageKey ≠ "getItem" := by decide
    have hp : storageKey ≠ "__proto__" := by decide
    simp [o.setItem_of_intact storageKey v hi, Except.bind, FallbackObj.getItem,
      o.getProp_getItem_setProp storageKey (some v) hi hs,
      o.getProp_setProp_same storageKey v hp, Except.map]

/-- Witness of C8: the fresh fallback object, the storage key and the value
`"\x7b\x7d"`. -/
theorem fallback_field_store_witness :
    freshFallback.Intact ∧ storageKey ≠ "getItem" ∧
      ((freshFallback.setItem storageKey "\x7b\x7d").bind
        fun r => r.2.getItem storageKey).map Prod.fst = .ok (.str "\x7b\x7d") :=
  ⟨⟨rfl, rfl⟩, by decide,
    (fallback_field_store freshFallback storageKey "\x7b\x7d" ⟨rfl, rfl⟩ (by decide)).2.2.1⟩

/-! ## Frames -/

/-- C9. For every world, every string `v` and every key `k` other than the
storage key, persist-request(v) leaves what the bound backend returns for
`get(k)` as it was; the host storage, when there is one, returns for `k` what
it returned before; and a missing host storage stays missing. -/
theorem persist_changes_only_storage_key (w : World) (v k : String) (hk : k ≠ storageKey) :
    (persistStore v w).world.storageGet k = w.storageGet k ∧
      (∀ s, w.localStorage = some s →
        ∃ s1, (persistStore v w).world.localStorage = some s1 ∧ s1.getItem k = s.getItem k) ∧
      (w.localStorage = none → (persistStore v w).world.localStorage = none) := by
  cases h : w.localStorage with
  | none =>
    rw [persistStore_none w v h]
    exact ⟨rfl, by intro s hs; simp at hs, fun _ => h⟩
  | some s =>
    rw [persistStore_host w s v h]
    refine ⟨?_, ?_, by intro hn; simp at hn⟩
    · cases hst : w.storage with
      | host => simp [World.storageGet, hst, h, HostStore.getItem, HostStore.setItem, hk]
      | fallback o => simp [World.storageGet, hst]
    · intro s0 hs0
      have : s0 = s := by simpa using hs0.symm
      subst this
      exact ⟨_, rfl, by simp [HostStore.getItem, HostStore.setItem, hk]⟩

/-- Witness of C9: persisting `"new"` into the sample store leaves the key
`"theme"` at `"dark"`. -/
theorem persist_changes_only_storage_key_witness :
    "theme" ≠ storageKey ∧
      (boot ⟨some sampleStore⟩).storageGet "theme" = .ok (.str "dark") ∧
      (persistStore "new" (boot ⟨some sampleStore⟩)).world.storageGet "theme"
        = (boot ⟨some sampleStore⟩).storageGet "theme" :=
  ⟨by decide, by decide,
    (persist_changes_only_storage_key (boot ⟨some sampleStore⟩) "new" "theme" (by decide)).1⟩

theorem triggerStoreLoad_localStorage (w : World) :
    (triggerStoreLoad w).world.localStorage = w.localStorage := by
  cases h : w.localStorage with
  | none => rw [triggerStoreLoad_none w h]; exact h
  | some s =>
    cases hv : s storageKey with
    | none => rw [triggerStoreLoad_absent w s h hv]; exact h
    | some v => rw [triggerStoreLoad_present w s v h hv]; exact h

theorem run_loads_frame (n : Nat) (w : World) :
    (run w (List.replicate n .loadRequest)).localStorage = w.localStorage ∧
      (run w (List.replicate n .loadRequest)).storage = w.storage := by
  induction n generalizing w with
  | zero => exact ⟨rfl, rfl⟩
  | succ n ih =>
    rw [List.replicate_succ, run, handle]
    exact ⟨(ih _).1.trans (triggerStoreLoad_localStorage w),
      (ih _).2.trans (triggerStoreLoad_storage w)⟩

theorem run_loads_present (n : Nat) (w : World) (s : HostStore) (v : String)
    (h : w.localStorage = some s) (hv : s storageKey = some v) :
    (run w (List.replicate n .loadRequest)).sent = w.sent ++ List.replicate n (.str v) := by
  induction n generalizing w with
  | zero => simp [run]
  | succ n ih =>
    rw [List.replicate_succ, run, handle, ih _ (by rw [triggerStoreLoad_localStorage, h]),
      triggerStoreLoad_present w s v h hv]
    simp [List.replicate_succ]

theorem run_loads_absent (n : Nat) (w : World) (s : HostStore)
    (h : w.localStorage = some s) (hv : s storageKey = none) :
    (run w (List.replicate n .loadRequest)).sent = w.sent := by
  induction n generalizing w with
  | zero => simp [run]
  | succ n ih =>
    rw [List.replicate_succ, run, handle, ih _ (by rw [triggerStoreLoad_localStorage, h]),
      triggerStoreLoad_absent w s h hv]

theorem run_loads_none (n : Nat) (w : World) (h : w.localStorage = none) :
    (run w (List.replicate n .loadRequest)).sent = w.sent := by
  induction n generalizing w with
  | zero => simp [run]
  | succ n ih =>
    rw [List.replicate_succ, run, handle, ih _ (by rw [triggerStoreLoad_localStorage, h]),
      triggerStoreLoad_none w h]

/-- C10. In every world the script can reach, handling load-request() `n`
times in a row leaves the host storage and the binding of `storage` as they
were, so the bound backend returns the same for every key; and it sends `n`
signals with payload `x` when the backend holds `x` under the storage key, and
no signal when it holds nothing there. -/
theorem load_is_read_only (win : Window) (evs : List Event) (n : Nat) :
    (run (run (boot win) evs) (List.replicate n .loadRequest)).localStorage
        = (run (boot win) evs).localStorage ∧
      (run (run (boot win) evs) (List.replicate n .loadRequest)).storage
        = (run (boot win) evs).storage ∧
      (∀ k, (run (run (boot win) evs) (List.replicate n .loadRequest)).storageGet k
        = (run (boot win) evs).storageGet k) ∧
      ∃ x, (run (boot win) evs).storageGet storageKey = .ok x ∧
        (run (run (boot win) evs) (List.replicate n .loadRequest)).sent
          = (run (boot win) evs).sent ++ (if looseNeNull x then List.replicate n x else []) := by
  have hb := run_bound evs (boot win) (boot_bound win)
  generalize run (boot win) evs = w at hb
  have hf := run_loads_frame n w
  refine ⟨hf.1, hf.2, fun k => by simp [World.storageGet, hf.1, hf.2], ?_⟩
  rcases hb with ⟨s, hs, hst⟩ | ⟨hn, hst⟩
  · cases hv : s storageKey with
    | none =>
      refine ⟨.null, by simp [World.storageGet, hs, hst, HostStore.getItem, hv], ?_⟩
      rw [run_loads_absent n w s hs hv]; simp [looseNeNull]
    | some v =>
      refine ⟨.str v, by simp [World.storageGet, hs, hst, HostStore.getItem, hv], ?_⟩
      rw [run_loads_present n w s v hs hv]; simp [looseNeNull]
  · refine ⟨.undefined, ?_, ?_⟩
    · rw [World.storageGet, hst]; rfl
    · rw [run_loads_none n w hn]; simp [looseNeNull]

end Methodoly
